import Mathlib

/-!
# Verification of the devil-match analytics dashboard (`streamlit_app.py`)

A shallow embedding of the data model and of the aggregation, filtering,
loading and upload logic of the dashboard script, followed by theorems that
settle the specification's claims against it.

Conventions of the embedding:
* A pandas `DataFrame` becomes `Dataset`: a list of column names plus a list
  of fully-typed rows.  Optional columns (rank, KDA, power difference, the
  five-minute level averages, the end timestamp) exist as fields of every
  `Row`; whether the program may look at a field is governed by membership of
  the column's name in `Dataset.cols`, exactly as the script guards each use
  with `'col' in df.columns`.
* Column access `df['c']` on a frame whose columns do not contain `c` raises
  `KeyError`; reading a Python local that was never assigned raises
  `NameError`.  Both are modelled with `Except PyErr`.
* Numeric columns are `ℚ`; timestamps are seconds since the epoch (`Nat`);
  categorical columns are `Nat` codes.
* `pd.DataFrame.sort_values` is modelled with `List.mergeSort`.  Note the
  script calls it with the default `kind='quicksort'`, which is not stable;
  every theorem proved below about the sorted output is invariant under the
  order of rows with equal keys.
-/

namespace Dashboard

/-- Python-level exceptions that the modelled fragments can raise. -/
inductive PyErr where
  | keyError (col : String)
  | nameError (n : String)
  deriving Repr, DecidableEq

/-- One player-per-match record (`MatchRecord` of the spec).  Fields carry the
values of the spreadsheet columns used by the script. -/
structure Row where
  player_id : Nat
  match_id : Nat
  duration : ℚ
  is_win : Bool
  is_comeback : Bool
  rank : Nat
  newcomer : Nat
  kda : ℚ
  power_diff : ℚ
  my5min : ℚ
  enemy5min : ℚ
  endTs : Nat
  date : Nat
  hour : Nat
  deriving Repr, DecidableEq

/-- A pandas DataFrame: column names plus rows. -/
structure Dataset where
  cols : List String
  rows : List Row
  deriving Repr, DecidableEq

/-- `pd.DataFrame()`: the frame returned by `load_data` when no file is found
or parsing fails — it has no columns and no rows. -/
def emptyDataFrame : Dataset := ⟨[], []⟩

/-- `df.empty`: true when either axis has length zero. -/
def pdEmpty (df : Dataset) : Bool := df.rows.isEmpty || df.cols.isEmpty

/-- Column assignment `df['c'] = ...` adds the name `c` to the frame's columns
(or leaves the column list unchanged when `c` is already a column). -/
def addCol (cols : List String) (c : String) : List String :=
  if c ∈ cols then cols else cols ++ [c]

/-- `df['c']` projected through a field accessor: `KeyError` when the column
is absent, otherwise the column's values. -/
def getCol (df : Dataset) (c : String) (f : Row → α) : Except PyErr (List α) :=
  if c ∈ df.cols then .ok (df.rows.map f) else .error (.keyError c)

/-- First-occurrence deduplication, the behaviour of
`pd.DataFrame.drop_duplicates` / `Series.unique`; `seen` holds the values
already emitted. -/
def dropDupAux [DecidableEq α] (seen : List α) : List α → List α
  | [] => []
  | x :: xs => if x ∈ seen then dropDupAux seen xs else x :: dropDupAux (x :: seen) xs

/-- `pd.Series.value_counts`: one entry per distinct value with its number of
occurrences.  (pandas additionally orders the entries by descending count;
that permutation is irrelevant to every property proved here, so the entries
are kept in first-occurrence order.) -/
def valueCounts [DecidableEq α] (l : List α) : List (α × Nat) :=
  (dropDupAux [] l).map (fun x => (x, l.count x))

/-- Mean of a list of rationals (`Series.mean`).  On the empty list pandas
yields NaN; the model yields `0/0 = 0`, and no theorem below depends on the
empty case. -/
def meanQ (l : List ℚ) : ℚ := l.sum / l.length

end Dashboard

namespace Dashboard

/-! ## File discovery and upload naming

`load_data` globs `dayresult*.xlsx` inside `./data`; the upload handler
writes `uploaded_YYYYmmdd_HHMMSS.xlsx`.  Filenames are lists of characters.
-/

/-- The literal prefix of the glob pattern `dayresult*.xlsx` used by
`load_data` (src line 32). -/
def dayresultPre : List Char := ['d', 'a', 'y', 'r', 'e', 's', 'u', 'l', 't']

/-- The literal suffix of the glob pattern `dayresult*.xlsx`. -/
def xlsxSuf : List Char := ['.', 'x', 'l', 's', 'x']

/-- The fixed leading part of every filename the upload handler writes
(src line 91): `uploaded_` followed by a timestamp. -/
def uploadedPre : List Char := ['u', 'p', 'l', 'o', 'a', 'd', 'e', 'd', '_']

/-- Whether a filename matches the glob `dayresult*.xlsx`: the literal part
before `*` starts the name and `.xlsx` ends the remainder. -/
def globMatch (name : List Char) : Bool :=
  dayresultPre.isPrefixOf name && xlsxSuf.isSuffixOf (name.drop dayresultPre.length)

/-- The filename `ingest_upload` writes: `uploaded_<timestamp>.xlsx`
(src line 91; `to_excel` always writes `.xlsx`, also for CSV uploads). -/
def uploadName (ts : List Char) : List Char := uploadedPre ++ ts ++ xlsxSuf

/-- A file of the data directory, with the metadata `load_data` consults and
the frame that `pd.read_excel` would produce from its bytes. -/
structure DirFile where
  name : List Char
  mtime : Nat
  ctime : Nat
  frame : Dataset
  deriving Repr, DecidableEq

/-- Python's `max(xs, key=k)` starting from `x`: scan left to right, replace
the current maximum only on a strictly greater key, so the first maximal
element wins ties. -/
def pyMax (k : α → Nat) (x : α) (xs : List α) : α :=
  xs.foldl (fun c y => if k c < k y then y else c) x

/-- `data_dir.glob("dayresult*.xlsx")` over a directory listing. -/
def matchingFiles (dir : List DirFile) : List DirFile :=
  dir.filter (fun f => globMatch f.name)

/-- `max(excel_files, key=os.path.getctime)` (src line 39): the matching file
with the greatest ctime, `none` when no file matches. -/
def selectLatest (dir : List DirFile) : Option DirFile :=
  match matchingFiles dir with
  | [] => none
  | x :: xs => some (pyMax DirFile.ctime x xs)

/-- The type-conversion block of `load_data` (src lines 43-46): when the
end-timestamp column is present, derive the date and hour columns from it. -/
def deriveTimeCols (df : Dataset) : Dataset :=
  if "结束时间" ∈ df.cols then
    { cols := addCol (addCol df.cols "日期") "小时",
      rows := df.rows.map (fun r =>
        { r with date := r.endTs / 86400, hour := r.endTs % 86400 / 3600 }) }
  else df

/-- `load_data` (src lines 27-51): pick the latest matching file by ctime,
read it, derive the time columns; an empty frame when nothing matches. -/
def load_data (dir : List DirFile) : Dataset :=
  match selectLatest dir with
  | none => emptyDataFrame
  | some f => deriveTimeCols f.frame

end Dashboard

namespace Dashboard

/-! ## Filter engine (src lines 360-396) -/

/-- The win-state selector of the detail tab: 全部 / 是 / 否. -/
inductive WinChoice where
  | all
  | win
  | loss
  deriving Repr, DecidableEq

/-- The UI-held filter state (`FilterSpec` of the spec). -/
structure FilterSpec where
  selectedRanks : List Nat
  minKda : ℚ
  maxKda : ℚ
  winChoice : WinChoice
  deriving Repr, DecidableEq

/-- Src lines 384-385: keep rows whose rank is among the selected ones, a
no-op when the selection is empty or the rank column is absent. -/
def rankFilter (F : FilterSpec) (df : Dataset) : Dataset :=
  if F.selectedRanks ≠ [] ∧ "段位" ∈ df.cols then
    { df with rows := df.rows.filter (fun r => F.selectedRanks.contains r.rank) }
  else df

/-- Src lines 387-391: keep rows with KDA in the inclusive range, a no-op
when the KDA column is absent. -/
def kdaFilter (F : FilterSpec) (df : Dataset) : Dataset :=
  if "KDA" ∈ df.cols then
    { df with rows := df.rows.filter (fun r =>
        decide (F.minKda ≤ r.kda) && decide (r.kda ≤ F.maxKda)) }
  else df

/-- Src lines 393-396: keep winners, keep losers, or keep everything. -/
def winStateFilter (F : FilterSpec) (df : Dataset) : Dataset :=
  match F.winChoice with
  | .all => df
  | .win => { df with rows := df.rows.filter (fun r => r.is_win) }
  | .loss => { df with rows := df.rows.filter (fun r => !r.is_win) }

/-- `apply_filters` (src lines 382-396): the three filters applied in the
script's order to a copy of the frame. -/
def apply_filters (df : Dataset) (F : FilterSpec) : Dataset :=
  winStateFilter F (kdaFilter F (rankFilter F df))

end Dashboard

namespace Dashboard

/-! ## Core metric cards (src lines 123-167) -/

/-- `Series.nunique`: the number of distinct values. -/
def nunique [DecidableEq α] (l : List α) : Nat := (dropDupAux [] l).length

/-- The five summary numbers of the metric-card block. -/
structure Metrics where
  totalPlayers : Nat
  totalMatches : Nat
  avgTime : ℚ
  winRate : ℚ
  comebackMatches : Nat
  comebackRate : ℚ
  deriving Repr, DecidableEq

/-- `df['玩家id'].nunique()` (src line 129). -/
def total_players (df : Dataset) : Except PyErr Nat :=
  (getCol df "玩家id" Row.player_id).map nunique

/-- `df['对局id'].nunique()` (src line 137). -/
def total_matches (df : Dataset) : Except PyErr Nat :=
  (getCol df "对局id" Row.match_id).map nunique

/-- `df['对局时间'].mean()` (src line 145). -/
def avg_time (df : Dataset) : Except PyErr ℚ :=
  (getCol df "对局时间" Row.duration).map meanQ

/-- `df['是否获胜'].sum() / len(df) * 100` (src line 153).  The division is
unguarded in the source; in `ℚ` a zero denominator yields `0` where pandas
would yield NaN — no theorem below relies on that case. -/
def win_rate (df : Dataset) : Except PyErr ℚ :=
  (getCol df "是否获胜" Row.is_win).map
    (fun l => (l.count true : ℚ) / (df.rows.length : ℚ) * 100)

/-- `len(df[df['是否翻盘'] == 1]['对局id'].unique())` (src line 161). -/
def comeback_matches (df : Dataset) : Except PyErr Nat :=
  if "是否翻盘" ∈ df.cols then
    (getCol df "对局id" Row.match_id).map (fun _ =>
      nunique ((df.rows.filter (fun r => r.is_comeback)).map Row.match_id))
  else .error (.keyError "是否翻盘")

/-- The guarded rate of src line 162:
`(comeback_matches / total_matches * 100) if total_matches > 0 else 0`. -/
def comeback_rate (cm tm : Nat) : ℚ :=
  if tm > 0 then (cm : ℚ) / (tm : ℚ) * 100 else 0

/-- The whole metric-card block: the first failing column access aborts it. -/
def coreMetrics (df : Dataset) : Except PyErr Metrics := do
  let tp ← total_players df
  let tm ← total_matches df
  let at_ ← avg_time df
  let wr ← win_rate df
  let cm ← comeback_matches df
  pure ⟨tp, tm, at_, wr, cm, comeback_rate cm tm⟩

/-- The page outcome after `df = load_data()` returns. -/
inductive PageResult where
  | stopped
  | rendered (m : Except PyErr Metrics)
  deriving Repr

/-- Src lines 116-118 followed by the metric cards: an empty frame halts the
page (`st.stop()`) before any aggregate is computed. -/
def mainPage (df : Dataset) : PageResult :=
  if pdEmpty df then .stopped else .rendered (coreMetrics df)

/-! ## Player-analysis aggregates (src lines 231-259) -/

/-- `df[['玩家id', '段位']].drop_duplicates()['段位'].value_counts()`
(src line 232): deduplicate (player, rank) *pairs*, then count ranks. -/
def rank_dist (df : Dataset) : List (Nat × Nat) :=
  valueCounts
    ((dropDupAux [] (df.rows.map (fun r => (r.player_id, r.rank)))).map Prod.snd)

/-- `df[['玩家id', '新人类型']].drop_duplicates()['新人类型'].value_counts()`
(src line 249). -/
def newcomer_dist (df : Dataset) : List (Nat × Nat) :=
  valueCounts
    ((dropDupAux [] (df.rows.map (fun r => (r.player_id, r.newcomer)))).map Prod.snd)

/-- The number of distinct players of a frame. -/
def distinctPlayers (df : Dataset) : Nat := nunique (df.rows.map Row.player_id)

/-! ## Cumulative win rate (src lines 209-211) -/

/-- `df.sort_values('结束时间')`.  The source uses the default unstable
`kind='quicksort'`; the model uses a merge sort, and every theorem proved
about the result is invariant under the order of equal-timestamp rows. -/
def sortByEndTs (rows : List Row) : List Row :=
  rows.mergeSort (fun a b => decide (a.endTs ≤ b.endTs))

/-- `df_sorted['是否获胜'].expanding().mean() * 100`: the k-th value is the
mean of the win flags over the first k+1 sorted rows, times 100. -/
def cumWinRates (df : Dataset) : List ℚ :=
  (List.range (sortByEndTs df.rows).length).map (fun k =>
    ((((sortByEndTs df.rows).take (k + 1)).countP (fun r => r.is_win) : ℚ) /
      ((k : ℚ) + 1)) * 100)

end Dashboard

namespace Dashboard

/-! ## KDA heatmap block (src lines 262-290) -/

/-- Smallest element of a list of rationals (`Series.min`), `0` when empty. -/
def minQ : List ℚ → ℚ
  | [] => 0
  | x :: xs => xs.foldl min x

/-- Greatest element of a list of rationals (`Series.max`), `0` when empty. -/
def maxQ : List ℚ → ℚ
  | [] => 0
  | x :: xs => xs.foldl max x

/-- `pd.cut(x, bins=n)` bin index over `[lo, hi]`: right-closed equal-width
bins, the lowest edge stretched so the minimum lands in bin 0. -/
def pdCutIndex (lo hi : ℚ) (n : Nat) (x : ℚ) : Nat :=
  if x ≤ lo then 0
  else min (n - 1) (((x - lo) * n / (hi - lo)).ceil - 1).toNat

/-- `pd.crosstab(r, c)`: occurrence counts of the paired values. -/
def crosstab [DecidableEq α] [DecidableEq β] (r : List α) (c : List β) :
    List ((α × β) × Nat) :=
  let pairs := r.zip c
  (dropDupAux [] pairs).map (fun p => (p, pairs.count p))

/-- The Python locals of the heatmap block that hold frames, in scope at
src line 278, keyed by their names. -/
def heatmapFrameLocals (df filtered_df : Dataset) : List (String × Dataset) :=
  [("df", df), ("filtered_df", filtered_df)]

/-- Reading a Python local by name: `none` means the name was never assigned
and the reference raises `NameError`. -/
def lookupLocal (env : List (String × Dataset)) (n : String) : Option Dataset :=
  (env.find? (fun p => p.1 == n)).map Prod.snd

/-- What the heatmap block produces when it runs to completion. -/
inductive HeatmapOutcome where
  | skipped
  | drawn (table : List ((Nat × Nat) × Nat))
  deriving Repr, DecidableEq

/-- The heatmap block (src lines 274-290).  When the KDA column is present it
builds `filtered_df` (line 275) and then line 278 evaluates
`pd.cut(filter_df['KDA'], bins=kda_bins)` — `filter_df`, a name the script
never assigns, is looked up among the locals in scope. -/
def heatmapBlock (df : Dataset) (kdaBins : Nat) (minKda maxKda : ℚ) :
    Except PyErr HeatmapOutcome :=
  if "KDA" ∈ df.cols then
    let filtered_df : Dataset :=
      { df with rows := df.rows.filter (fun r =>
          decide (minKda ≤ r.kda) && decide (r.kda ≤ maxKda)) }
    match lookupLocal (heatmapFrameLocals df filtered_df) "filter_df" with
    | none => .error (.nameError "filter_df")
    | some src =>
      let kdaVals := src.rows.map Row.kda
      let binIdx := fun x => pdCutIndex (minQ kdaVals) (maxQ kdaVals) kdaBins x
      let rowKey := fun (r : Row) => if "段位" ∈ df.cols then r.rank else r.newcomer
      .ok (.drawn (crosstab (filtered_df.rows.map rowKey)
        (filtered_df.rows.map (fun r => binIdx r.kda))))
  else .ok .skipped

/-! ## Power-difference win rate (src lines 311-315) -/

/-- The column name src line 313 adds to the loaded frame. -/
def powerBinCol : String := "战力差区间"

/-- The power-difference block: when the column is present, src line 313
assigns `df['战力差区间'] = pd.cut(df['双方队伍战力差'], bins=10)` — a new
column on the loaded frame itself (each row's bin is the stated function of
its power difference, so the rows carry no extra storage) — and lines 314-315
group the win flags by bin and average them.  Returns the frame as the block
leaves it, paired with the per-bin mean win rates. -/
def win_rate_by_diff (df : Dataset) : Dataset × List (Nat × ℚ) :=
  if "双方队伍战力差" ∈ df.cols then
    let vals := df.rows.map Row.power_diff
    let binIdx := fun x => pdCutIndex (minQ vals) (maxQ vals) 10 x
    let df2 : Dataset := { df with cols := addCol df.cols powerBinCol }
    let keys := dropDupAux [] (df.rows.map (fun r => binIdx r.power_diff))
    (df2, keys.map (fun b =>
      (b, meanQ ((df.rows.filter (fun r => binIdx r.power_diff == b)).map
        (fun r => if r.is_win then 1 else 0)))))
  else (df, [])

/-! ## Comeback analysis (src lines 328-353) -/

/-- The figures of the comeback block. -/
structure ComebackStats where
  avgGap : Option ℚ
  avgPowerDiff : Option ℚ
  avgTimeComeback : ℚ
  avgTimeNormal : ℚ
  deriving Repr, DecidableEq

/-- The comeback block.  Src lines 329-330 carve two fresh frames out of `df`
by boolean masks; src line 338 assigns the level-gap column to
`comeback_df`, the copy — never to `df`.  Returns the loaded frame as the
block leaves it, paired with the stats (`none` when no comeback row
exists). -/
def comeback_analysis (df : Dataset) : Dataset × Option ComebackStats :=
  let comeback_df : Dataset := { df with rows := df.rows.filter (fun r => r.is_comeback) }
  let normal_df : Dataset := { df with rows := df.rows.filter (fun r => !r.is_comeback) }
  if comeback_df.rows.isEmpty then (df, none)
  else
    let hasLevels : Prop := "己方5分钟平均等级" ∈ df.cols ∧ "敌方5分钟平均等级" ∈ df.cols
    let comeback_df₂ : Dataset :=
      if hasLevels then { comeback_df with cols := addCol comeback_df.cols "5分钟等级差" }
      else comeback_df
    let gap : Option ℚ :=
      if hasLevels then some (meanQ (comeback_df₂.rows.map (fun r => r.enemy5min - r.my5min)))
      else none
    let pw : Option ℚ :=
      if "双方队伍战力差" ∈ df.cols then some (meanQ (comeback_df₂.rows.map Row.power_diff))
      else none
    (df, some ⟨gap, pw, meanQ (comeback_df₂.rows.map Row.duration),
               meanQ (normal_df.rows.map Row.duration)⟩)

/-! ## Upload handler (src lines 82-97) -/

/-- The mutable state the upload handler can touch: the data directory, the
`st.cache_data` cache of the loaded frame, and the message area. -/
structure AppState where
  files : List DirFile
  cache : Option Dataset
  messages : List String
  deriving Repr, DecidableEq

/-- The result of `pd.read_excel` / `pd.read_csv` on the uploaded bytes:
either a frame, or the exception a malformed file raises. -/
inductive ParseOutcome where
  | ok (frame : Dataset)
  | raised (e : String)
  deriving Repr, DecidableEq

/-- The upload handler (src lines 83-97).  The whole body is one `try`:
parsing happens first, then the write under `uploaded_<timestamp>.xlsx`, the
success message, and the cache clear; any exception jumps to the `except`
arm, which only reports the error. -/
def ingest_upload (parsed : ParseOutcome) (ts : List Char) (now : Nat)
    (st : AppState) : AppState :=
  match parsed with
  | .raised e => { st with messages := st.messages ++ ["文件上传失败: " ++ e] }
  | .ok frame =>
      { files := st.files ++ [⟨uploadName ts, now, now, frame⟩],
        cache := none,
        messages := st.messages ++ ["文件上传成功！"] }

end Dashboard

namespace Dashboard

/-! ## Concrete fixtures used by the closed theorems below -/

/-- A fixture row; the concrete frames below override the fields they
examine. -/
def baseRow : Row :=
  { player_id := 0, match_id := 0, duration := 600, is_win := false,
    is_comeback := false, rank := 0, newcomer := 0, kda := 1, power_diff := 0,
    my5min := 0, enemy5min := 0, endTs := 0, date := 0, hour := 0 }

/-- A one-row frame that carries a KDA column (and a rank column). -/
def kdaDemoDf : Dataset :=
  ⟨["玩家id", "段位", "KDA"], [{ baseRow with player_id := 1, rank := 1, kda := 5 }]⟩

/-- One player recorded under two different ranks. -/
def twoRankDf : Dataset :=
  ⟨["玩家id", "段位"],
   [{ baseRow with player_id := 1, rank := 1 },
    { baseRow with player_id := 1, rank := 2 }]⟩

/-- A matching data file that is the most recently *modified* one. -/
def fileA : DirFile :=
  ⟨dayresultPre ++ ['a'] ++ xlsxSuf, 100, 1,
   ⟨["玩家id"], [{ baseRow with player_id := 1 }]⟩⟩

/-- A matching data file that is the most recently *created* one. -/
def fileB : DirFile :=
  ⟨dayresultPre ++ ['b'] ++ xlsxSuf, 1, 100,
   ⟨["玩家id"], [{ baseRow with player_id := 2 }]⟩⟩

/-- A data directory where modification order and creation order disagree. -/
def ctimeDir : List DirFile := [fileA, fileB]

/-- A one-row frame whose single row is a win. -/
def oneWinDf : Dataset :=
  ⟨["结束时间", "是否获胜"], [{ baseRow with is_win := true, endTs := 1000 }]⟩

/-- A one-row frame that carries the power-difference column. -/
def powerDf : Dataset :=
  ⟨["双方队伍战力差", "是否获胜"], [{ baseRow with power_diff := 3 }]⟩

end Dashboard

namespace Dashboard

/-! ## Helper lemmas -/

theorem band_dup2 (a b : Bool) : (a && (b && (a && b))) = (a && b) := by
  cases a <;> cases b <;> rfl

theorem band_dup3 (x y z : Bool) :
    (x && (y && (z && (x && (y && z))))) = (x && (y && z)) := by
  cases x <;> cases y <;> cases z <;> rfl

theorem globMatch_uploadName (ts : List Char) : globMatch (uploadName ts) = false := by
  simp [globMatch, uploadName, uploadedPre, dayresultPre, List.isPrefixOf]

theorem pyMax_mem (k : α → Nat) (x : α) (xs : List α) : pyMax k x xs ∈ x :: xs := by
  induction xs generalizing x with
  | nil => simp [pyMax]
  | cons y ys ih =>
    rw [show pyMax k x (y :: ys) = pyMax k (if k x < k y then y else x) ys from rfl]
    rcases List.mem_cons.mp (ih (x := if k x < k y then y else x)) with h | h
    · rw [h]
      split
      · exact List.mem_cons_of_mem _ (List.mem_cons_self _ _)
      · exact List.mem_cons_self _ _
    · exact List.mem_cons_of_mem _ (List.mem_cons_of_mem _ h)

theorem pyMax_ge (k : α → Nat) (x : α) (xs : List α) :
    ∀ y ∈ x :: xs, k y ≤ k (pyMax k x xs) := by
  induction xs generalizing x with
  | nil => intro y hy; simp at hy; simp [pyMax, hy]
  | cons z zs ih =>
    intro y hy
    rw [show pyMax k x (z :: zs) = pyMax k (if k x < k z then z else x) zs from rfl]
    have hx : k x ≤ k (if k x < k z then z else x) := by
      split
      · omega
      · omega
    have hz : k z ≤ k (if k x < k z then z else x) := by
      split
      · omega
      · omega
    rcases List.mem_cons.mp hy with h | h
    · subst h
      calc k y ≤ k (if k y < k z then z else y) := hx
        _ ≤ _ := ih _ _ (List.mem_cons_self _ _)
    · rcases List.mem_cons.mp h with h2 | h2
      · subst h2
        calc k y ≤ k (if k x < k y then y else x) := hz
          _ ≤ _ := ih _ _ (List.mem_cons_self _ _)
      · exact ih _ _ (List.mem_cons_of_mem _ h2)

theorem selectLatest_mem {dir : List DirFile} {f : DirFile}
    (h : selectLatest dir = some f) : f ∈ matchingFiles dir := by
  rcases hm : matchingFiles dir with _ | ⟨x, xs⟩
  · simp [selectLatest, hm] at h
  · simp only [selectLatest, hm] at h
    rw [← Option.some_inj.mp h]
    exact pyMax_mem _ _ _

theorem selectLatest_max {dir : List DirFile} {f : DirFile}
    (h : selectLatest dir = some f) : ∀ g ∈ matchingFiles dir, g.ctime ≤ f.ctime := by
  rcases hm : matchingFiles dir with _ | ⟨x, xs⟩
  · simp [selectLatest, hm] at h
  · simp only [selectLatest, hm] at h
    intro g hg
    rw [← Option.some_inj.mp h]
    exact pyMax_ge _ _ _ g hg

theorem mem_dropDupAux [DecidableEq α] (seen : List α) (l : List α) (a : α) :
    a ∈ dropDupAux seen l ↔ a ∈ l ∧ a ∉ seen := by
  induction l generalizing seen with
  | nil => simp [dropDupAux]
  | cons x xs ih =>
    by_cases hx : x ∈ seen
    · simp only [dropDupAux, if_pos hx, ih, List.mem_cons]
      constructor
      · rintro ⟨h1, h2⟩; exact ⟨Or.inr h1, h2⟩
      · rintro ⟨h1 | h1, h2⟩
        · exact absurd (h1 ▸ hx) h2
        · exact ⟨h1, h2⟩
    · simp only [dropDupAux, if_neg hx, List.mem_cons, ih]
      constructor
      · rintro (h | ⟨h1, h2⟩)
        · exact ⟨Or.inl h, h ▸ hx⟩
        · exact ⟨Or.inr h1, fun hs => h2 (Or.inr hs)⟩
      · rintro ⟨h1 | h1, h2⟩
        · exact Or.inl h1
        · by_cases hax : a = x
          · exact Or.inl hax
          · exact Or.inr ⟨h1, fun hh => hh.elim hax h2⟩

theorem nodup_dropDupAux [DecidableEq α] (seen : List α) (l : List α) :
    (dropDupAux seen l).Nodup := by
  induction l generalizing seen with
  | nil => simp [dropDupAux]
  | cons x xs ih =>
    by_cases hx : x ∈ seen
    · simpa [dropDupAux, if_pos hx] using ih seen
    · simp only [dropDupAux, if_neg hx, List.nodup_cons]
      refine ⟨fun hmem => ?_, ih (x :: seen)⟩
      exact ((mem_dropDupAux _ _ _).mp hmem).2 (List.mem_cons_self _ _)

theorem toFinset_dropDupAux [DecidableEq α] (l : List α) :
    (dropDupAux [] l).toFinset = l.toFinset := by
  ext a
  simp [List.mem_toFinset, mem_dropDupAux]

theorem length_dropDupAux [DecidableEq α] (l : List α) :
    (dropDupAux [] l).length = l.toFinset.card := by
  rw [← toFinset_dropDupAux, List.toFinset_card_of_nodup (nodup_dropDupAux [] l)]

theorem valueCounts_sum [DecidableEq α] (l : List α) :
    ((valueCounts l).map Prod.snd).sum = l.length := by
  have h1 : (valueCounts l).map Prod.snd = (dropDupAux [] l).map (fun x => l.count x) := by
    simp [valueCounts, List.map_map, Function.comp]
  rw [h1]
  rw [← List.sum_toFinset _ (nodup_dropDupAux [] l)]
  rw [toFinset_dropDupAux]
  exact List.sum_toFinset_count_eq_length l

end Dashboard

namespace Dashboard

/-! ## Claim theorems -/

/-- Claim C6: for every Dataset and FilterSpec, `apply_filters` is
idempotent — applying the rank-membership, KDA-range and win-state filters a
second time with the same specification changes nothing. -/
theorem apply_filters_idempotent (df : Dataset) (F : FilterSpec) :
    apply_filters (apply_filters df F) F = apply_filters df F := by
  obtain ⟨cols, rows⟩ := df
  cases hW : F.winChoice <;>
    simp only [apply_filters, winStateFilter, kdaFilter, rankFilter, hW] <;>
    split_ifs <;>
    simp only [List.filter_filter] <;>
    first
      | rfl
      | (congr 1
         refine congrFun (congrArg List.filter ?_) rows
         funext a
         simp only [band_dup2, band_dup3, Bool.and_self])

/-- Claim C10: every filename written by the upload handler starts with
`uploaded_`, so it never matches the loader's glob `dayresult*.xlsx`, and the
file `load_data` selects is never an uploaded one. -/
theorem uploads_never_selected :
    (∀ ts : List Char, globMatch (uploadName ts) = false) ∧
    (∀ (dir : List DirFile) (f : DirFile) (ts : List Char),
      selectLatest dir = some f → f.name ≠ uploadName ts) := by
  refine ⟨globMatch_uploadName, fun dir f ts h hname => ?_⟩
  have hmem := selectLatest_mem h
  have hglob : globMatch f.name = true := by
    have := List.mem_filter.mp hmem
    simpa using this.2
  rw [hname, globMatch_uploadName] at hglob
  exact Bool.false_ne_true hglob

/-- Witness for C10 at a concrete directory and timestamp. -/
theorem uploads_never_selected_witness :
    globMatch (uploadName ['2', '0']) = false ∧
    fileB.name ≠ uploadName ['2', '0'] := by
  refine ⟨uploads_never_selected.1 _, ?_⟩
  exact uploads_never_selected.2 ctimeDir fileB ['2', '0'] (by decide)

/-- Counterexample to claim C2: in a Dataset where one player appears under
two different ranks, the `rank_dist` counts sum to 2 while the number of
distinct players is 1 — the code deduplicates (player, rank) pairs, not
players. -/
theorem rank_dist_sum_ne_distinct_players :
    ((rank_dist twoRankDf).map Prod.snd).sum ≠ distinctPlayers twoRankDf := by
  decide

/-- Claim C2 (amended): the `rank_dist` counts sum to the number of distinct
(player_id, rank) pairs of the Dataset. -/
theorem rank_dist_sum_eq_distinct_pairs (df : Dataset) :
    ((rank_dist df).map Prod.snd).sum
      = ((df.rows.map (fun r => (r.player_id, r.rank))).toFinset).card := by
  unfold rank_dist
  rw [valueCounts_sum, List.length_map, length_dropDupAux]

/-- Claim C8: when parsing the uploaded bytes raises, the handler reports the
error and changes nothing — no file is written and the Dataset cache keeps
its prior value; the cache is cleared only on the success path. -/
theorem upload_failure_preserves_state (st : AppState) (e : String)
    (ts : List Char) (now : Nat) :
    (ingest_upload (.raised e) ts now st).files = st.files ∧
    (ingest_upload (.raised e) ts now st).cache = st.cache ∧
    (ingest_upload (.raised e) ts now st).messages
      = st.messages ++ ["文件上传失败: " ++ e] ∧
    (∀ frame, (ingest_upload (.ok frame) ts now st).cache = none) := by
  exact ⟨rfl, rfl, rfl, fun _ => rfl⟩

end Dashboard

namespace Dashboard

/-- Counterexample to claim C7: applied to the empty Dataset that the loader
returns (a frame with no columns at all), the first aggregation raises
`KeyError` instead of returning an empty result. -/
theorem total_players_on_empty_raises :
    total_players emptyDataFrame = Except.error (PyErr.keyError "玩家id") := by
  rfl

/-- Claim C7 (amended): the page halts with an error before any aggregation
runs whenever the Dataset is empty, so the aggregations are never applied to
an empty Dataset; the one division guarded against a zero denominator is the
comeback rate, which returns the sentinel 0. -/
theorem empty_dataset_stops_page (df : Dataset) (h : pdEmpty df = true) :
    mainPage df = PageResult.stopped ∧ (∀ cm : Nat, comeback_rate cm 0 = 0) := by
  constructor
  · simp [mainPage, h]
  · intro cm
    simp [comeback_rate]

/-- Witness for C7 at the loader's empty frame. -/
theorem empty_dataset_stops_page_witness :
    pdEmpty emptyDataFrame = true ∧
    (mainPage emptyDataFrame = PageResult.stopped ∧
      (∀ cm : Nat, comeback_rate cm 0 = 0)) :=
  ⟨rfl, empty_dataset_stops_page emptyDataFrame rfl⟩

/-- Counterexample to claim C9: the power-difference block is not pure — on a
frame that carries the power-difference column it adds the bin column to the
loaded Dataset itself, so the Dataset's columns change. -/
theorem power_diff_block_adds_column :
    (win_rate_by_diff powerDf).1.cols ≠ powerDf.cols := by
  decide

/-- Claim C9 (amended): the aggregation stages leave the loaded Dataset's
rows unchanged, and the comeback derivation (which writes only to a filtered
copy) leaves the Dataset entirely unchanged; the single frame effect is the
power-difference block appending its bin column to the Dataset's column
list. -/
theorem aggregation_frame_effects (df : Dataset) :
    (win_rate_by_diff df).1.rows = df.rows ∧
    (win_rate_by_diff df).1.cols
      = (if "双方队伍战力差" ∈ df.cols then addCol df.cols powerBinCol
         else df.cols) ∧
    (comeback_analysis df).1 = df := by
  refine ⟨?_, ?_, ?_⟩
  · unfold win_rate_by_diff
    split_ifs <;> rfl
  · unfold win_rate_by_diff
    split_ifs <;> rfl
  · unfold comeback_analysis
    dsimp only
    split <;> rfl

/-- Claim C1: rendering the KDA heatmap on any Dataset with a KDA column
raises `NameError` — src line 278 reads `filter_df`, a local the script never
assigns (a typo for `filtered_df`) — so the block never completes. -/
theorem heatmap_block_raises_for_kda_frame :
    heatmapBlock kdaDemoDf 10 0 10 = Except.error (PyErr.nameError "filter_df") := by
  rfl

end Dashboard

namespace Dashboard

/-- Counterexample to claim C3: in a directory where `fileA` is the most
recently modified matching file but `fileB` the most recently created one,
`load_data` selects `fileB` — `os.path.getctime`, not the modification
time, decides. -/
theorem select_latest_ignores_mtime :
    selectLatest ctimeDir = some fileB ∧
    fileA ∈ matchingFiles ctimeDir ∧
    fileB.mtime < fileA.mtime ∧
    fileB ≠ fileA := by
  refine ⟨by decide, by decide, by decide, by decide⟩

/-- Claim C3 (amended): for every directory with at least one matching file,
`load_data` selects a matching file whose ctime (creation/metadata-change
time, the first such on ties) is maximal — not the modification time — and
renders the frame parsed from it with the date and hour columns derived when
the end-timestamp column is present. -/
theorem load_data_selects_latest_ctime (dir : List DirFile)
    (h : matchingFiles dir ≠ []) :
    ∃ f, selectLatest dir = some f ∧ f ∈ matchingFiles dir ∧
      (∀ g ∈ matchingFiles dir, g.ctime ≤ f.ctime) ∧
      load_data dir = deriveTimeCols f.frame := by
  rcases hm : matchingFiles dir with _ | ⟨x, xs⟩
  · exact absurd hm h
  · refine ⟨pyMax DirFile.ctime x xs, ?_, ?_, ?_, ?_⟩
    · simp [selectLatest, hm]
    · exact pyMax_mem _ _ _
    · intro g hg
      exact pyMax_ge _ _ _ g hg
    · simp [load_data, selectLatest, hm]

/-- Witness for C3 at a concrete directory. -/
theorem load_data_selects_latest_ctime_witness :
    matchingFiles ctimeDir ≠ [] ∧
    ∃ f, selectLatest ctimeDir = some f ∧ f ∈ matchingFiles ctimeDir ∧
      (∀ g ∈ matchingFiles ctimeDir, g.ctime ≤ f.ctime) ∧
      load_data ctimeDir = deriveTimeCols f.frame :=
  ⟨by decide, load_data_selects_latest_ctime ctimeDir (by decide)⟩

end Dashboard

namespace Dashboard

/-- Claim C4: on a non-empty Dataset every cumulative win-rate value lies in
[0, 100], and the last value equals sum(is_win) / count(rows) * 100.  Both
facts are invariant under the order in which equal-timestamp rows are
sorted. -/
theorem cum_win_rate_bounds_and_last (df : Dataset) (h : df.rows ≠ []) :
    (∀ v ∈ cumWinRates df, 0 ≤ v ∧ v ≤ 100) ∧
    (cumWinRates df).getLast?
      = some (((df.rows.countP (fun r => r.is_win) : ℚ) /
          (df.rows.length : ℚ)) * 100) := by
  have hL : (sortByEndTs df.rows).length = df.rows.length := by
    simp [sortByEndTs]
  constructor
  · intro v hv
    simp only [cumWinRates, List.mem_map, List.mem_range] at hv
    obtain ⟨k, hk, rfl⟩ := hv
    have hcnt : ((sortByEndTs df.rows).take (k + 1)).countP (fun r => r.is_win) ≤ k + 1 := by
      calc ((sortByEndTs df.rows).take (k + 1)).countP (fun r => r.is_win)
          ≤ ((sortByEndTs df.rows).take (k + 1)).length := List.countP_le_length _
        _ ≤ k + 1 := by
            rw [List.length_take]
            omega
    have hkpos : (0 : ℚ) < (k : ℚ) + 1 := by positivity
    constructor
    · positivity
    · have hcast : (((sortByEndTs df.rows).take (k + 1)).countP (fun r => r.is_win) : ℚ)
          ≤ (k : ℚ) + 1 := by
        exact_mod_cast hcnt
      have hdiv : (((sortByEndTs df.rows).take (k + 1)).countP (fun r => r.is_win) : ℚ)
          / ((k : ℚ) + 1) ≤ 1 := (div_le_one hkpos).mpr hcast
      linarith
  · have h1 : df.rows.length ≠ 0 := fun hc => h (List.length_eq_zero.mp hc)
    obtain ⟨m, hm⟩ : ∃ m, (sortByEndTs df.rows).length = m + 1 := by
      refine ⟨df.rows.length - 1, by omega⟩
    unfold cumWinRates
    rw [hm, List.range_succ, List.map_append, List.map_cons, List.map_nil,
      List.getLast?_concat]
    have htake : (sortByEndTs df.rows).take (m + 1) = sortByEndTs df.rows := by
      rw [← hm]
      exact List.take_length _
    rw [htake]
    have hperm : (sortByEndTs df.rows).countP (fun r => r.is_win)
        = df.rows.countP (fun r => r.is_win) :=
      (List.mergeSort_perm df.rows (fun a b => decide (a.endTs ≤ b.endTs))).countP_eq _
    rw [show sortByEndTs df.rows
        = df.rows.mergeSort (fun a b => decide (a.endTs ≤ b.endTs)) from rfl] at hperm
    have hmlen : ((m : ℚ) + 1) = (df.rows.length : ℚ) := by
      have : m + 1 = df.rows.length := by omega
      exact_mod_cast this
    rw [show sortByEndTs df.rows
        = df.rows.mergeSort (fun a b => decide (a.endTs ≤ b.endTs)) from rfl,
      hperm, hmlen]

/-- Witness for C4 at a one-row Dataset whose single row is a win. -/
theorem cum_win_rate_bounds_and_last_witness :
    oneWinDf.rows ≠ [] ∧
    (cumWinRates oneWinDf).getLast?
      = some (((oneWinDf.rows.countP (fun r => r.is_win) : ℚ) /
          (oneWinDf.rows.length : ℚ)) * 100) :=
  ⟨by decide, (cum_win_rate_bounds_and_last oneWinDf (by decide)).2⟩

end Dashboard
